import Mathlib

/-!
Shallow embedding of the CatalogServerStack deployment plan
(src/catalog_cdk_mysql/catalog_cdk_mysql_stack.py) and proofs about the
claims of its specification.  The plan is a static CDK stack: a VPC, a
security group, an IAM role, a user-data bootstrap script, a launch
template, an auto-scaling group with a CPU target-tracking policy, and an
application load balancer with one listener and target group.
-/

namespace CatalogServer

/-! ## Access Policy (security group) -/

/-- A peer of a security-group ingress rule, as used in the stack:
either `ec2.Peer.any_ipv4()` or a reference to a security group
(the self-referential rule passes `server_sg` itself). -/
inductive Peer where
  | anyIpv4 : Peer
  | securityGroup : String → Peer
deriving DecidableEq, Repr

/-- One `add_ingress_rule(peer, port, description)` call. -/
structure IngressRule where
  peer : Peer
  port : Nat
  description : String
deriving DecidableEq, Repr

/-- The security group: its construct id, outbound setting and the list of
ingress rules added to it, in source order. -/
structure SecurityGroup where
  sgId : String
  allowAllOutbound : Bool
  ingressRules : List IngressRule
deriving DecidableEq, Repr

/-- `server_sg` from the stack: HTTP and HTTPS from any IPv4 source, and
MySQL (3306) only from members of the same security group. -/
def serverSG : SecurityGroup :=
  { sgId := "ServerSG"
    allowAllOutbound := true
    ingressRules :=
      [ ⟨Peer.anyIpv4, 80, "Allow HTTP traffic"⟩,
        ⟨Peer.anyIpv4, 443, "Allow HTTPS traffic"⟩,
        ⟨Peer.securityGroup "ServerSG", 3306,
          "Allow MySQL traffic from instances in the same group"⟩ ] }

/-- A connection source: whether it has an IPv4 address, and the security
groups it is a member of. -/
structure Source where
  hasIpv4 : Bool
  memberGroups : List String
deriving DecidableEq, Repr

/-- Whether a rule peer matches a source. -/
def matchesPeer : Peer → Source → Bool
  | Peer.anyIpv4, s => s.hasIpv4
  | Peer.securityGroup g, s => s.memberGroups.contains g

/-- A security group admits an inbound connection on `port` from `src`
iff some ingress rule with that port has a peer matching the source. -/
def admits (sg : SecurityGroup) (src : Source) (port : Nat) : Bool :=
  sg.ingressRules.any (fun r => r.port == port && matchesPeer r.peer src)

/-! ## Bootstrap script (user_data)

The user data is a list of shell command lines.  A heredoc block
(`cat > file << EOL` followed by its content up to `EOL`, and the
`mysql_secure_installation << EOF` block) is a single shell command that
consumes the following lines as its input, so each such block is one
command here.  The two lines joined by `&&` in the source are the only
lines with more than one command. -/

/-- One shell command of the bootstrap script, in source order. -/
inductive Cmd where
  | shebang                  -- "#!/bin/bash" (a comment line when executed)
  | aptUpdate                -- "apt update"
  | aptUpgrade               -- "apt upgrade -y"
  | aptInstallPackages       -- "apt install nginx python3 python3-pip python3-venv mysql-server -y"
  | mysqlSecureInstallation  -- "mysql_secure_installation << EOF ... EOF"
  | mysqlCreateDatabase      -- mysql -e CREATE DATABASE IF NOT EXISTS catalog
  | mysqlCreateUser          -- mysql -e CREATE USER IF NOT EXISTS catalog_user@localhost
  | mysqlGrantPrivileges     -- mysql -e GRANT ALL PRIVILEGES ON catalog.* TO catalog_user@localhost
  | mysqlFlushPrivileges     -- mysql -e FLUSH PRIVILEGES
  | mysqlCreateProductsTable -- mysql -e USE catalog; CREATE TABLE IF NOT EXISTS products ...
  | mysqlInsertSeedRows      -- mysql -e USE catalog; INSERT INTO products ... two rows
  | mkdirCatalogServer       -- "mkdir -p /home/ubuntu/catalog_server"
  | cdCatalogServer          -- "cd /home/ubuntu/catalog_server"
  | createVenv               -- "python3 -m venv venv"
  | activateVenv             -- "source venv/bin/activate"
  | pipInstall               -- "pip install flask flask_sqlalchemy mysqlclient gunicorn"
  | writeAppPy               -- "cat > /home/ubuntu/catalog_server/app.py << EOL ... EOL"
  | writeNginxConfig         -- "cat > /etc/nginx/sites-available/catalog << EOL ... EOL"
  | linkNginxSite            -- "ln -s /etc/nginx/sites-available/catalog /etc/nginx/sites-enabled/"
  | removeDefaultSite        -- "rm -f /etc/nginx/sites-enabled/default"
  | nginxTest                -- "nginx -t"
  | nginxReload              -- "systemctl reload nginx"
  | writeSystemdUnit         -- "cat > /etc/systemd/system/catalog.service << EOL ... EOL"
  | systemdDaemonReload      -- "systemctl daemon-reload"
  | systemctlStartCatalog    -- "systemctl start catalog"
  | systemctlEnableCatalog   -- "systemctl enable catalog"
deriving DecidableEq, Repr

/-- A shell script: whether the errexit option (`set -e`) is in effect,
and the command lines, each line a nonempty `&&`-chain of commands. -/
structure ShellScript where
  errexit : Bool
  lines : List (List Cmd)
deriving DecidableEq, Repr

/-- The bootstrap script of the stack.  The script begins with
`#!/bin/bash` and never sets the errexit option, so `errexit := false`.
Lines 1 and 19 are the two `&&`-joined lines of the source. -/
def bootstrapScript : ShellScript :=
  { errexit := false
    lines :=
      [ [Cmd.shebang],
        [Cmd.aptUpdate, Cmd.aptUpgrade],
        [Cmd.aptInstallPackages],
        [Cmd.mysqlSecureInstallation],
        [Cmd.mysqlCreateDatabase],
        [Cmd.mysqlCreateUser],
        [Cmd.mysqlGrantPrivileges],
        [Cmd.mysqlFlushPrivileges],
        [Cmd.mysqlCreateProductsTable],
        [Cmd.mysqlInsertSeedRows],
        [Cmd.mkdirCatalogServer],
        [Cmd.cdCatalogServer],
        [Cmd.createVenv],
        [Cmd.activateVenv],
        [Cmd.pipInstall],
        [Cmd.writeAppPy],
        [Cmd.writeNginxConfig],
        [Cmd.linkNginxSite],
        [Cmd.removeDefaultSite],
        [Cmd.nginxTest, Cmd.nginxReload],
        [Cmd.writeSystemdUnit],
        [Cmd.systemdDaemonReload],
        [Cmd.systemctlStartCatalog],
        [Cmd.systemctlEnableCatalog] ] }

/-- Exit status of an `&&`-chain is a failure iff some command of the
chain fails (the chain stops at its first failing command, whose status
becomes the status of the line). -/
def lineFails (fails : Cmd → Bool) (line : List Cmd) : Bool :=
  line.any fails

/-- Bash semantics of line execution: line `i` runs unless errexit is in
effect and some earlier line failed.  Without `set -e` every line runs. -/
def runsLine (s : ShellScript) (fails : Cmd → Bool) (i : Nat) : Bool :=
  !s.errexit || (s.lines.take i).all (fun l => !lineFails fails l)

/-- The command at position `k` of line `i` executes iff the line runs
and every earlier command of the same `&&`-chain succeeded. -/
def runsCmdAt (s : ShellScript) (fails : Cmd → Bool) (i k : Nat) : Bool :=
  runsLine s fails i &&
    (match s.lines.get? i with
     | none => false
     | some line => decide (k < line.length) && (line.take k).all (fun c => !fails c))

/-! ## Products table and the API (from the mysql commands and app.py) -/

/-- A fixed-precision price is kept as an exact count of cents: the
`DECIMAL(10,2)` column stores two fractional digits, so 1200.00 is
120000 cents and 800.00 is 80000 cents. -/
structure ProductRow where
  id : Nat
  name : String
  description : Option String
  priceCents : Int
deriving DecidableEq, Repr

/-- The two value tuples of the INSERT statement in the bootstrap script
(`Cmd.mysqlInsertSeedRows`), in source order. -/
def seedValues : List (String × Option String × Int) :=
  [ ("Laptop", some "A high-end laptop", 120000),
    ("Phone", some "Latest smartphone", 80000) ]

/-- Inserting value tuples into an empty table with an `AUTO_INCREMENT`
primary key assigns ids `start`, `start + 1`, ... -/
def insertRows (start : Nat) : List (String × Option String × Int) → List ProductRow
  | [] => []
  | (n, d, c) :: rest => ⟨start, n, d, c⟩ :: insertRows (start + 1) rest

/-- The products table right after the bootstrap script ran on a fresh
instance: the two seed rows, ids counting from 1. -/
def seededTable : List ProductRow := insertRows 1 seedValues

/-- A Python numeric value carrying its exact cent count together with
its runtime kind: a binary float or a fixed-precision decimal. -/
inductive PyNumber where
  | pyFloat (cents : Int)
  | pyDecimal (cents : Int)
deriving DecidableEq, Repr

/-- Whether a Python numeric value is a binary float. -/
def PyNumber.isFloat : PyNumber → Bool
  | pyFloat _ => true
  | pyDecimal _ => false

/-- SQL column types of the CREATE TABLE statement. -/
inductive SqlType where
  | intAutoPk
  | varchar (n : Nat)
  | text
  | decimal (precision scale : Nat)
deriving DecidableEq, Repr

/-- SQLAlchemy column types of the `Product` model in app.py. -/
inductive OrmType where
  | integerPk
  | stringLim (n : Nat)
  | text
  | float
deriving DecidableEq, Repr

/-- The `products` table schema from `Cmd.mysqlCreateProductsTable`:
id INT AUTO_INCREMENT PRIMARY KEY, name VARCHAR(255) NOT NULL,
description TEXT, price DECIMAL(10,2) NOT NULL. -/
def productsTableSchema : List (String × SqlType) :=
  [ ("id", SqlType.intAutoPk),
    ("name", SqlType.varchar 255),
    ("description", SqlType.text),
    ("price", SqlType.decimal 10 2) ]

/-- The `Product` model columns from app.py: db.Integer primary key,
db.String(255) not nullable, db.Text, db.Float not nullable. -/
def productModelColumns : List (String × OrmType) :=
  [ ("id", OrmType.integerPk),
    ("name", OrmType.stringLim 255),
    ("description", OrmType.text),
    ("price", OrmType.float) ]

/-- Value the ORM materializes when reading the price column through a
mapped column type: a column mapped as `db.Float` coerces the stored
decimal to a binary float; any exact mapping would keep the decimal. -/
def priceValueOf (t : OrmType) (cents : Int) : PyNumber :=
  match t with
  | OrmType.float => PyNumber.pyFloat cents
  | _ => PyNumber.pyDecimal cents

/-- One element of the JSON array built by `get_products` in app.py. -/
structure ProductJson where
  id : Nat
  name : String
  description : Option String
  price : PyNumber
deriving DecidableEq, Repr

/-- `get_products` from app.py: `Product.query.all()` then
`jsonify([{id, name, description, price} for p in products])`,
each price read through the model column type `db.Float`. -/
def get_products (table : List ProductRow) : List ProductJson :=
  table.map (fun p =>
    ⟨p.id, p.name, p.description, priceValueOf OrmType.float p.priceCents⟩)

/-! ## Reverse proxy (nginx site written by the script) and the service -/

/-- The upstream of a `proxy_pass` directive. -/
structure ProxyTarget where
  host : String
  port : Nat
deriving DecidableEq, Repr

/-- A `location` block: the URI path it matches as a prefix, its
`proxy_pass` upstream, and its `proxy_set_header` directives. -/
structure NginxLocation where
  locPath : String
  target : ProxyTarget
  setHeaders : List (String × String)
deriving DecidableEq, Repr

/-- A `server` block: listen port, server_name, location blocks. -/
structure NginxServer where
  listenPort : Nat
  serverName : String
  locations : List NginxLocation
deriving DecidableEq, Repr

/-- The single `location /` block of the site written by
`Cmd.writeNginxConfig`: proxy_pass http to 127.0.0.1:5000 with Host,
X-Real-IP and X-Forwarded-For set from the incoming request. -/
def catalogLocation : NginxLocation :=
  { locPath := "/"
    target := ⟨"127.0.0.1", 5000⟩
    setHeaders :=
      [ ("Host", "$host"),
        ("X-Real-IP", "$remote_addr"),
        ("X-Forwarded-For", "$proxy_add_x_forwarded_for") ] }

/-- The site written by `Cmd.writeNginxConfig`: listen 80, server_name
underscore, the one location block above. -/
def catalogSite : NginxServer :=
  { listenPort := 80
    serverName := "_"
    locations := [catalogLocation] }

/-- A location block handles a URI iff its path is a prefix of the URI
(nginx prefix location matching), compared character by character. -/
def locMatches (loc : NginxLocation) (uri : String) : Bool :=
  loc.locPath.data.isPrefixOf uri.data

/-- Route a request URI through a server block: the first location that
matches the URI handles it. -/
def routeRequest (srv : NginxServer) (uri : String) : Option NginxLocation :=
  srv.locations.find? (fun loc => locMatches loc uri)

/-- The gunicorn bind host of the systemd unit written by
`Cmd.writeSystemdUnit` (ExecStart ... --bind 0.0.0.0:5000). -/
def gunicornBindHost : String := "0.0.0.0"

/-- The gunicorn bind port of the systemd unit. -/
def gunicornBindPort : Nat := 5000

/-! ## Plan resources, creation order and references -/

/-- The six plan resources the dependency claim speaks about. -/
inductive Resource where
  | network        -- ec2.Vpc "CatalogVPC"
  | accessPolicy   -- ec2.SecurityGroup "ServerSG"
  | identityRole   -- iam.Role "CatalogServerRole"
  | launchTemplate -- ec2.LaunchTemplate "CatalogLaunchTemplate"
  | instanceFleet  -- autoscaling.AutoScalingGroup "CatalogASG"
  | lbAttachment   -- elbv2 load balancer, listener and target group
deriving DecidableEq, Repr, Fintype

/-- Position of each resource in the stack's declaration (and hence
creation) order. -/
def creationOrder : List Resource :=
  [ Resource.network, Resource.accessPolicy, Resource.identityRole,
    Resource.launchTemplate, Resource.instanceFleet, Resource.lbAttachment ]

/-- Index of a resource in the creation order. -/
def idx : Resource → Nat
  | Resource.network => 0
  | Resource.accessPolicy => 1
  | Resource.identityRole => 2
  | Resource.launchTemplate => 3
  | Resource.instanceFleet => 4
  | Resource.lbAttachment => 5

/-- The plan resources each resource references by identity in the
source: the security group takes `vpc`; the IAM role takes only the
ec2.amazonaws.com service principal, so no plan resource; the launch
template takes `server_sg` and `instance_role`; the auto-scaling group
takes `vpc` and `launch_template`; the load balancer and its target
attachment take `vpc` and `asg`. -/
def references : Resource → List Resource
  | Resource.network => []
  | Resource.accessPolicy => [Resource.network]
  | Resource.identityRole => []
  | Resource.launchTemplate => [Resource.accessPolicy, Resource.identityRole]
  | Resource.instanceFleet => [Resource.network, Resource.launchTemplate]
  | Resource.lbAttachment => [Resource.network, Resource.instanceFleet]

/-! ## Machine image map and plan compilation -/

/-- The region-to-AMI map passed to `ec2.MachineImage.generic_linux`:
a single populated entry. -/
def amiMap : List (String × String) :=
  [("eu-west-1", "ami-0261755bbcb8c4a84")]

/-- AMI lookup for a target region. -/
def resolveAmi (region : String) : Option String :=
  (amiMap.find? (fun p => p.1 == region)).map (fun p => p.2)

/-- Compiling (synthesizing) the plan for a region: `generic_linux`
raises a configuration error when the map has no entry for the region,
before any resource is created; otherwise the plan lists the resources
to create in order. -/
def compilePlan (region : String) : Except String (List Resource) :=
  match resolveAmi region with
  | some _ => Except.ok creationOrder
  | none => Except.error ("no AMI mapped for region " ++ region)

/-! ## Instance fleet, scaling policy and health checks -/

/-- Auto-scaling group configuration. -/
structure AsgConfig where
  minCapacity : Nat
  maxCapacity : Nat
  desiredCapacity : Nat
  cooldownSeconds : Nat
deriving DecidableEq, Repr

/-- `asg` from the stack: min 2, max 4, desired 2, cooldown 3 minutes. -/
def asgConfig : AsgConfig :=
  { minCapacity := 2, maxCapacity := 4, desiredCapacity := 2
    cooldownSeconds := 180 }

/-- CPU target-tracking scaling policy configuration. -/
structure CpuScalingConfig where
  targetUtilizationPercent : Nat
  cooldownSeconds : Nat
deriving DecidableEq, Repr

/-- `scale_on_cpu_utilization("CpuScaling", ...)` from the stack:
target 70 percent, cooldown 3 minutes. -/
def cpuScaling : CpuScalingConfig :=
  { targetUtilizationPercent := 70, cooldownSeconds := 180 }

/-- The kind of health check the auto-scaling group uses to decide
replacement. -/
inductive AsgHealthCheckKind where
  | ec2  -- VM-level system status only
  | elb  -- VM status and the load balancer target health
deriving DecidableEq, Repr

/-- The stack configures `health_check=autoscaling.HealthCheck.ec2()`. -/
def asgHealthCheckKind : AsgHealthCheckKind := AsgHealthCheckKind.ec2

/-- Observable state of one fleet instance: whether its bootstrap
completed and left the API service answering requests, and whether the
virtual machine itself is healthy at the hypervisor level. -/
structure InstanceState where
  bootstrapOk : Bool
  vmHealthy : Bool
deriving DecidableEq, Repr

/-- The load balancer's probe `GET /products` (path, 30 s interval, 5 s
timeout from `listener.add_targets`) succeeds iff the bootstrapped API
service is up and answering. -/
def albProbePasses (s : InstanceState) : Bool := s.bootstrapOk

/-- The load balancer takes a target out of rotation when its probe
fails. -/
def albInRotation (s : InstanceState) : Bool := albProbePasses s

/-- What the auto-scaling group's configured health check reports. -/
def asgSeesHealthy (s : InstanceState) : Bool :=
  match asgHealthCheckKind with
  | AsgHealthCheckKind.ec2 => s.vmHealthy
  | AsgHealthCheckKind.elb => s.vmHealthy && albProbePasses s

/-- The fleet manager replaces an instance iff its configured health
check reports it unhealthy. -/
def asgReplaces (s : InstanceState) : Bool := !asgSeesHealthy s

/-! ## Theorems -/

/-- C1: the Access Policy admits inbound TCP/3306 only from members of the
same security group — for every source not in the policy group no ingress
rule matches a connection to port 3306 — while inbound TCP/80 and TCP/443
are admitted from any IPv4 source. -/
theorem C1_access_policy_db_port (src : Source) :
    (serverSG.sgId ∉ src.memberGroups → admits serverSG src 3306 = false) ∧
    (src.hasIpv4 = true →
      admits serverSG src 80 = true ∧ admits serverSG src 443 = true) := by
  constructor
  · intro h
    simp only [serverSG] at h
    simp [admits, serverSG, matchesPeer, h]
  · intro h
    simp [admits, serverSG, matchesPeer, h]

/-- Witness for C1 at a concrete external IPv4 source belonging to no
security group. -/
theorem C1_access_policy_db_port_witness :
    admits serverSG ⟨true, []⟩ 3306 = false ∧
    admits serverSG ⟨true, []⟩ 80 = true ∧
    admits serverSG ⟨true, []⟩ 443 = true := by
  have h := C1_access_policy_db_port ⟨true, []⟩
  exact ⟨h.1 (by simp), (h.2 rfl).1, (h.2 rfl).2⟩

/-- C2: the bootstrap script seeds the products table with exactly two
rows, and GET /products returns exactly those two records — Laptop at
1200.00 (120000 cents) and Phone at 800.00 (80000 cents) — each
serialized with the fields id, name, description, price. -/
theorem C2_seed_rows_and_get_products :
    [Cmd.mysqlInsertSeedRows] ∈ bootstrapScript.lines ∧
    seededTable.length = 2 ∧
    get_products seededTable =
      [ ⟨1, "Laptop", some "A high-end laptop", PyNumber.pyFloat 120000⟩,
        ⟨2, "Phone", some "Latest smartphone", PyNumber.pyFloat 80000⟩ ] :=
  ⟨by decide, rfl, rfl⟩

/-- C3 counterexample: with the `apt install` line (line 2) failing, the
next line, `mysql_secure_installation` (line 3), still executes — the
script never sets the errexit option, so a failed step does not abort
the remainder of the script. -/
theorem C3_fail_fast_counterexample :
    lineFails (fun c => c == Cmd.aptInstallPackages)
      ((bootstrapScript.lines.get? 2).getD []) = true ∧
    runsLine bootstrapScript (fun c => c == Cmd.aptInstallPackages) 3 = true ∧
    runsCmdAt bootstrapScript (fun c => c == Cmd.aptInstallPackages) 3 0 = true := by
  decide

/-- C3 amended: the script lacks fail-fast settings, so every command
line executes regardless of earlier failures; only within one of the two
`&&`-joined lines does failure of the first command keep the second
command of that line from running. -/
theorem C3_no_errexit_all_lines_run (fails : Cmd → Bool) (i : Nat)
    (h : i < bootstrapScript.lines.length) :
    runsLine bootstrapScript fails i = true ∧
    (fails Cmd.aptUpdate = true → runsCmdAt bootstrapScript fails 1 1 = false) ∧
    (fails Cmd.nginxTest = true → runsCmdAt bootstrapScript fails 19 1 = false) := by
  refine ⟨by simp [runsLine, bootstrapScript], ?_, ?_⟩
  · intro hf
    simp [runsCmdAt, runsLine, bootstrapScript, hf]
  · intro hf
    simp [runsCmdAt, runsLine, bootstrapScript, hf]

/-- Witness for the amended C3 with every command failing: line 3 still
runs, while the second command of each `&&`-joined line does not. -/
theorem C3_no_errexit_all_lines_run_witness :
    runsLine bootstrapScript (fun _ => true) 3 = true ∧
    runsCmdAt bootstrapScript (fun _ => true) 1 1 = false ∧
    runsCmdAt bootstrapScript (fun _ => true) 19 1 = false := by
  have h := C3_no_errexit_all_lines_run (fun _ => true) 3 (by decide)
  exact ⟨h.1, h.2.1 rfl, h.2.2 rfl⟩

/-- C4 counterexample: the Identity Role is created after the Network
and the Access Policy, yet references no earlier plan resource — the IAM
role names only the ec2.amazonaws.com service principal — refuting the
claim that each later resource references an earlier one by identity. -/
theorem C4_references_counterexample :
    references Resource.identityRole = [] ∧ 0 < idx Resource.identityRole :=
  ⟨rfl, by decide⟩

/-- Every declared reference points to a resource created earlier. -/
theorem refs_point_earlier :
    ∀ r d : Resource, d ∈ references r → idx d < idx r := by
  decide

/-- C4 amended: resource creation follows the order Network, Access
Policy, Identity Role, Launch Template, Instance Fleet, Load Balancer
attachment, and every reference a resource declares points to an
earlier resource in that order; the Identity Role, however, declares no
reference to any plan resource. -/
theorem C4_creation_respects_dependencies (r d : Resource)
    (h : d ∈ references r) :
    creationOrder =
      [ Resource.network, Resource.accessPolicy, Resource.identityRole,
        Resource.launchTemplate, Resource.instanceFleet, Resource.lbAttachment ] ∧
    idx d < idx r :=
  ⟨rfl, refs_point_earlier r d h⟩

/-- Witness for the amended C4: the Access Policy references the
Network, which is created before it. -/
theorem C4_creation_respects_dependencies_witness :
    creationOrder =
      [ Resource.network, Resource.accessPolicy, Resource.identityRole,
        Resource.launchTemplate, Resource.instanceFleet, Resource.lbAttachment ] ∧
    idx Resource.network < idx Resource.accessPolicy :=
  C4_creation_respects_dependencies Resource.accessPolicy Resource.network (by decide)

/-- C5 counterexample: an instance whose bootstrap failed but whose VM
is healthy never passes the load balancer probe, yet the fleet manager —
configured with EC2-level health checks only — does not replace it. -/
theorem C5_replacement_counterexample :
    albProbePasses ⟨false, true⟩ = false ∧
    asgReplaces ⟨false, true⟩ = false :=
  ⟨rfl, rfl⟩

/-- C5 amended: a bootstrap-failed instance never passes the load
balancer's health probe and stays out of rotation, but the fleet uses
EC2-level health checks, so it replaces the instance exactly when the
VM itself is unhealthy; a bootstrap failure alone does not trigger
replacement. -/
theorem C5_bootstrap_failure_health (s : InstanceState)
    (h : s.bootstrapOk = false) :
    albProbePasses s = false ∧ albInRotation s = false ∧
    asgReplaces s = (!s.vmHealthy) := by
  simp [albProbePasses, albInRotation, asgReplaces, asgSeesHealthy,
    asgHealthCheckKind, h]

/-- Witness for the amended C5 at a bootstrap-failed instance whose VM
is also unhealthy: out of rotation, and replaced for the VM failure. -/
theorem C5_bootstrap_failure_health_witness :
    albProbePasses ⟨false, false⟩ = false ∧
    albInRotation ⟨false, false⟩ = false ∧
    asgReplaces ⟨false, false⟩ = (!(false : Bool)) :=
  C5_bootstrap_failure_health ⟨false, false⟩ rfl

/-- C6: the Instance Fleet is configured with min=2, max=4, desired=2,
and its scaling policy targets 70 percent average CPU utilization with
a 3-minute (180 s) cooldown between scaling actions. -/
theorem C6_fleet_capacity_and_scaling :
    asgConfig.minCapacity = 2 ∧ asgConfig.maxCapacity = 4 ∧
    asgConfig.desiredCapacity = 2 ∧ asgConfig.cooldownSeconds = 180 ∧
    cpuScaling.targetUtilizationPercent = 70 ∧
    cpuScaling.cooldownSeconds = 180 := by
  decide

/-- C7: the region-to-machine-image map has exactly one populated entry
(eu-west-1), so compiling the plan for any other region fails with a
configuration error before any resource is created. -/
theorem C7_single_region_ami (region : String) (h : region ≠ "eu-west-1") :
    amiMap.length = 1 ∧
    compilePlan region = Except.error ("no AMI mapped for region " ++ region) := by
  refine ⟨rfl, ?_⟩
  have hb : (("eu-west-1" : String) == region) = false :=
    beq_eq_false_iff_ne.mpr (Ne.symm h)
  simp [compilePlan, resolveAmi, amiMap, List.find?, hb]

/-- Witness for C7 at the us-east-1 region. -/
theorem C7_single_region_ami_witness :
    amiMap.length = 1 ∧
    compilePlan "us-east-1" =
      Except.error ("no AMI mapped for region " ++ "us-east-1") :=
  C7_single_region_ami "us-east-1" (by decide)

/-- C8: every request on port 80 (URIs start with a slash) is routed by
the catalog site to the API process's internal port 5000, with Host,
X-Real-IP and X-Forwarded-For set from the incoming request, and the
bootstrap script removes the pre-existing default site. -/
theorem C8_reverse_proxy (uri : String)
    (h : "/".data.isPrefixOf uri.data = true) :
    catalogSite.listenPort = 80 ∧
    routeRequest catalogSite uri = some catalogLocation ∧
    catalogLocation.target = ⟨"127.0.0.1", gunicornBindPort⟩ ∧
    catalogLocation.setHeaders =
      [ ("Host", "$host"), ("X-Real-IP", "$remote_addr"),
        ("X-Forwarded-For", "$proxy_add_x_forwarded_for") ] ∧
    [Cmd.removeDefaultSite] ∈ bootstrapScript.lines := by
  refine ⟨rfl, ?_, rfl, rfl, by decide⟩
  simp [routeRequest, locMatches, catalogSite, catalogLocation, List.find?, h]

/-- Witness for C8 at the request URI /products. -/
theorem C8_reverse_proxy_witness :
    catalogSite.listenPort = 80 ∧
    routeRequest catalogSite "/products" = some catalogLocation ∧
    catalogLocation.target = ⟨"127.0.0.1", gunicornBindPort⟩ ∧
    catalogLocation.setHeaders =
      [ ("Host", "$host"), ("X-Real-IP", "$remote_addr"),
        ("X-Forwarded-For", "$proxy_add_x_forwarded_for") ] ∧
    [Cmd.removeDefaultSite] ∈ bootstrapScript.lines :=
  C8_reverse_proxy "/products" (by decide)

/-- C9: although gunicorn binds 0.0.0.0:5000, the Access Policy has no
ingress rule for port 5000, so no source is admitted on port 5000
directly, while any IPv4 source is admitted on the proxy port 80. -/
theorem C9_no_direct_port_5000 (src : Source) :
    gunicornBindHost = "0.0.0.0" ∧ gunicornBindPort = 5000 ∧
    admits serverSG src gunicornBindPort = false ∧
    (src.hasIpv4 = true → admits serverSG src catalogSite.listenPort = true) := by
  refine ⟨rfl, rfl, ?_, ?_⟩
  · simp [admits, serverSG, gunicornBindPort]
  · intro h
    simp [admits, serverSG, catalogSite, matchesPeer, h]

/-- Witness for C9 at a concrete external IPv4 source. -/
theorem C9_no_direct_port_5000_witness :
    gunicornBindHost = "0.0.0.0" ∧ gunicornBindPort = 5000 ∧
    admits serverSG ⟨true, ["OtherSG"]⟩ gunicornBindPort = false ∧
    admits serverSG ⟨true, ["OtherSG"]⟩ catalogSite.listenPort = true := by
  have h := C9_no_direct_port_5000 ⟨true, ["OtherSG"]⟩
  exact ⟨h.1, h.2.1, h.2.2.1, h.2.2.2 rfl⟩

/-- C10: the database column for price is DECIMAL(10,2) while the ORM
model declares price as db.Float, so every price value produced by
GET /products is a binary float converted from the decimal column, not
an exact fixed-precision decimal. -/
theorem C10_price_decimal_vs_float (table : List ProductRow) :
    List.lookup "price" productsTableSchema = some (SqlType.decimal 10 2) ∧
    List.lookup "price" productModelColumns = some OrmType.float ∧
    (get_products table).all (fun p => PyNumber.isFloat p.price) = true := by
  refine ⟨rfl, rfl, ?_⟩
  induction table with
  | nil => rfl
  | cons a l ih =>
      simp [get_products, priceValueOf, PyNumber.isFloat]

end CatalogServer
